import Mathlib

/-!
Shallow embedding of the caching and refresh core of the unleash-edge
repository, covering:

* src/server/src/http/background_refresh.rs  (poll_for_token_status, refresh_features)
* src/server/src/middleware/validate_token.rs (validate_token)
* src/server/src/main.rs                      (clean_shutdown)

Pure functions model each loop body; the long-running loops are modelled as
folds over the finite sequence of messages actually received on their
channels (a receive on an open, empty channel suspends forever and produces
no further observable events, so a run over the received prefix captures the
full observable trace).  Trait objects whose implementations are outside the
three files (EdgeSink, the upstream client, EdgePersistence) are modelled as
oracle functions passed in as parameters; where a claim depends on behaviour
of such a missing implementation, the definition carries a doc comment
starting with `Modelled from the spec:`.
-/

/-- Token kind, from the data model (types.rs is not under src/; the variants
are those matched in validate_token.rs and listed in spec section 3). -/
inductive TokenType
  | Frontend
  | Client
  | Admin
  deriving DecidableEq

/-- Validation status of a token, as matched in validate_token.rs. -/
inductive TokenValidationStatus
  | Unknown
  | Validated
  | Invalid
  deriving DecidableEq

/-- Token record: token string, environment key, project scope, kind, status
(spec section 3; the fields used by the three source files).  The derived
structural DecidableEq is only a meta-level instance for evaluating concrete
runs; the PROGRAM's equality on tokens is `tokenEq` below. -/
structure EdgeToken where
  token : String
  environment : String
  projects : List String
  token_type : Option TokenType
  status : TokenValidationStatus
  deriving DecidableEq

/-- Modelled from the spec: EdgeToken's Eq and Hash implementations live in
types.rs, which is not under src/; spec section 3 says "Tokens with the same
string are equal", so the program compares tokens by their token string
alone. -/
def tokenEq (a b : EdgeToken) : Bool := a.token == b.token

/-- State of the bounded tokio mpsc feature channel between the token-status
worker and the feature refresher: capacity, queued hints (FIFO, head is
oldest), and whether the receiver has been dropped. -/
structure FChannel where
  cap : Nat
  queue : List EdgeToken
  closed : Bool
  deriving DecidableEq

/-- Outcome of one attempt to complete `Sender.send(t).await` on a bounded
tokio mpsc channel: the value is enqueued when there is capacity, the sender
suspends (the worker blocks at the await point) when the queue is at
capacity, and the send returns an error when the receiver is gone. -/
inductive SendOutcome
  | enqueued (c : FChannel)
  | suspended
  | closedErr
  deriving DecidableEq

/-- Semantics of the bounded `Sender.send(..).await` used at
background_refresh.rs line 22: it awaits capacity — on a full open channel
the caller suspends rather than dropping the value; only a dropped receiver
makes it return an error. -/
def mpscSend (c : FChannel) (t : EdgeToken) : SendOutcome :=
  if c.closed then SendOutcome.closedErr
  else if c.queue.length < c.cap then
    SendOutcome.enqueued { c with queue := c.queue ++ [t] }
  else SendOutcome.suspended

/-- Observable actions of the token-status worker loop body
(background_refresh.rs lines 12-33). -/
inductive PEvent
  | validateCall (ts : List EdgeToken)
  | sinkCall (ts : List EdgeToken)
  | warnSink (e : String)
  | warnValidate (e : String)
  | sendHint (t : EdgeToken)
  deriving DecidableEq

/-- Body of the poll_for_token_status loop for one received token
(background_refresh.rs lines 14-28): validate the singleton list holding the
token; on success sink the validated records, and if sinking succeeds send
the ORIGINAL incoming token on the feature channel with the send result
discarded; on any error log a warning and fall through to the next receive.
`v` and `s` are the sink's validate and sink_tokens methods (EdgeSink
implementation is outside src/), given as oracles. -/
def pollIteration (v : List EdgeToken → Except String (List EdgeToken))
    (s : List EdgeToken → Except String Unit) (t : EdgeToken) : List PEvent :=
  match v [t] with
  | Except.ok vs =>
    match s vs with
    | Except.ok _ => [PEvent.validateCall [t], PEvent.sinkCall vs, PEvent.sendHint t]
    | Except.error e => [PEvent.validateCall [t], PEvent.sinkCall vs, PEvent.warnSink e]
  | Except.error e => [PEvent.validateCall [t], PEvent.warnValidate e]

/-- The poll_for_token_status loop (background_refresh.rs lines 7-34) run
over the sequence of tokens received on the token channel; when the channel
is drained the loop either suspends in recv or breaks on closure, producing
no further events. -/
def poll_for_token_status (v : List EdgeToken → Except String (List EdgeToken))
    (s : List EdgeToken → Except String Unit) : List EdgeToken → List PEvent
  | [] => []
  | t :: msgs => pollIteration v s t ++ poll_for_token_status v s msgs

/-- Upstream response for a feature fetch, as matched at
background_refresh.rs lines 47-55: NoUpdate is a 304 (ETag unchanged),
Updated carries a new payload and optional ETag. -/
inductive ClientFeaturesResponse
  | NoUpdate (etag : String)
  | Updated (features : String) (etag : Option String)
  deriving DecidableEq

/-- Per-target refresh bookkeeping (types.rs is not under src/; fields per
spec section 3: last-refresh timestamp, last-check timestamp, ETag, all
nullable).  Times are modelled as natural-number clock readings. -/
structure TokenRefresh where
  last_refreshed : Option Nat
  last_check : Option Nat
  etag : Option String
  deriving DecidableEq

/-- State held behind the EdgeSink trait object: the feature cache B
(environment key to payload), the engine cache C (environment key to the
payload the engine was built from), and the refresh-target bookkeeping D
keyed by token string.  Payloads are opaque byte strings. -/
structure SinkState where
  features : List (String × String)
  engines : List (String × String)
  targets : List (String × TokenRefresh)
  deriving DecidableEq

/-- A fresh refresh-target record with no timestamps and no ETag. -/
def emptyRefresh : TokenRefresh :=
  { last_refreshed := none, last_check := none, etag := none }

/-- Association-list lookup by key. -/
def assocFind {α : Type} (k : String) : List (String × α) → Option α
  | [] => none
  | (k', v) :: rest => if k' = k then some v else assocFind k rest

/-- Association-list insert-or-replace by key. -/
def assocSet {α : Type} (k : String) (v : α) : List (String × α) → List (String × α)
  | [] => [(k, v)]
  | (k', v') :: rest => if k' = k then (k', v) :: rest else (k', v') :: assocSet k v rest

/-- Update the refresh-target record stored under key `k`, creating it from
`emptyRefresh` when absent. -/
def upsertTarget (k : String) (f : TokenRefresh → TokenRefresh) :
    List (String × TokenRefresh) → List (String × TokenRefresh)
  | [] => [(k, f emptyRefresh)]
  | (k', v) :: rest => if k' = k then (k', f v) :: rest else (k', v) :: upsertTarget k f rest

/-- Modelled from the spec: the EdgeSink implementation of fetch_features is
not under src/ (only the trait call site at background_refresh.rs line 45
is).  Per spec section 4.F it issues the conditional upstream request for
the target and maintains the target's bookkeeping: on 304 it advances the
last-check timestamp only; on 200 it records the new ETag and advances both
timestamps; on a network error it changes nothing.  The upstream response is
supplied by the oracle `up`; `now` is the current clock reading. -/
def fetch_features (up : EdgeToken → Except String ClientFeaturesResponse) (now : Nat)
    (st : SinkState) (t : EdgeToken) : Except String ClientFeaturesResponse × SinkState :=
  match up t with
  | Except.error e => (Except.error e, st)
  | Except.ok (ClientFeaturesResponse.NoUpdate tag) =>
    (Except.ok (ClientFeaturesResponse.NoUpdate tag),
     { st with
       targets :=
         upsertTarget t.token (fun r => { r with last_check := some now }) st.targets })
  | Except.ok (ClientFeaturesResponse.Updated fs tag) =>
    (Except.ok (ClientFeaturesResponse.Updated fs tag),
     { st with
       targets :=
         upsertTarget t.token
           (fun r => { r with last_check := some now, last_refreshed := some now, etag := tag })
           st.targets })

/-- Modelled from the spec: the EdgeSink implementation of sink_features is
not under src/ (only the trait call site at background_refresh.rs line 50
is).  Per spec sections 3 and 4.F it replaces the feature cache entry for
the token's environment key and rebuilds the engine cache entry from that
same payload. -/
def sink_features (st : SinkState) (t : EdgeToken) (fs : String) : SinkState :=
  { st with features := assocSet t.environment fs st.features,
            engines := assocSet t.environment fs st.engines }

/-- Observable actions of the feature-refresher loop
(background_refresh.rs lines 36-71). -/
inductive REvent
  | recvToken (t : EdgeToken)
  | fetch (t : EdgeToken)
  | infoNoUpdate
  | sinkFeats (t : EdgeToken) (fs : String)
  | warnSinkFailed (e : String)
  | warnFetchFailed (e : String)
  | sleep15
  deriving DecidableEq

/-- Body of the per-target for-loop in refresh_features
(background_refresh.rs lines 44-60): fetch features for the target; on 304
only log; on 200 sink the new payload (a failing sink is logged and leaves
the caches untouched); on a fetch error log and continue.  `sr` is the
result of the sink_features call supplied as an oracle. -/
def refreshOne (up : EdgeToken → Except String ClientFeaturesResponse)
    (sr : EdgeToken → String → Except String Unit) (now : Nat)
    (st : SinkState) (u : EdgeToken) : List REvent × SinkState :=
  match fetch_features up now st u with
  | (Except.error e, st') => ([REvent.fetch u, REvent.warnFetchFailed e], st')
  | (Except.ok (ClientFeaturesResponse.NoUpdate _), st') =>
    ([REvent.fetch u, REvent.infoNoUpdate], st')
  | (Except.ok (ClientFeaturesResponse.Updated fs _), st') =>
    match sr u fs with
    | Except.ok _ => ([REvent.fetch u, REvent.sinkFeats u fs], sink_features st' u fs)
    | Except.error e => ([REvent.fetch u, REvent.sinkFeats u fs, REvent.warnSinkFailed e], st')

/-- The per-target for-loop of refresh_features run over the whole token
set, threading the sink state and advancing the clock by one per fetch. -/
def refreshBatch (up : EdgeToken → Except String ClientFeaturesResponse)
    (sr : EdgeToken → String → Except String Unit) :
    Nat → SinkState → List EdgeToken → List REvent × SinkState × Nat
  | now, st, [] => ([], st, now)
  | now, st, u :: rest =>
    let p := refreshOne up sr now st u
    let q := refreshBatch up sr (now + 1) p.2 rest
    (p.1 ++ q.1, q.2)

/-- State of the refresh_features loop: the HashSet of registered refresh
targets (modelled as a duplicate-free list in insertion order) plus the
sink's state. -/
structure RefreshState where
  tokens : List EdgeToken
  sink : SinkState
  deriving DecidableEq

/-- HashSet::insert at background_refresh.rs line 41: adds the token only
when no equal token is already present, where token equality is the
program's `tokenEq` (by token string, per spec section 3 — types.rs with the
Eq/Hash implementations is not under src/); a same-string token already in
the set keeps its stored record. -/
def insertToken (t : EdgeToken) (ts : List EdgeToken) : List EdgeToken :=
  if ts.any (tokenEq t) then ts else ts ++ [t]

/-- One iteration of the refresh_features loop for one token received on the
feature channel (background_refresh.rs lines 39-69): insert the token into
the target set, fetch features for EVERY registered target, then sleep 15
seconds before the next receive. -/
def refreshIteration (up : EdgeToken → Except String ClientFeaturesResponse)
    (sr : EdgeToken → String → Except String Unit) (now : Nat)
    (rs : RefreshState) (t : EdgeToken) : List REvent × RefreshState × Nat :=
  let tokens' := insertToken t rs.tokens
  let q := refreshBatch up sr now rs.sink tokens'
  (REvent.recvToken t :: q.1 ++ [REvent.sleep15], { tokens := tokens', sink := q.2.1 }, q.2.2)

/-- The refresh_features loop (background_refresh.rs lines 36-71) run over
the sequence of tokens received on the feature channel.  The receive at
line 39 gates every iteration: with no message the loop suspends in recv (or
breaks on closure) and produces no events at all — there is no timer-driven
branch, the 15-second sleep only delays the next receive. -/
def refresh_features (up : EdgeToken → Except String ClientFeaturesResponse)
    (sr : EdgeToken → String → Except String Unit) :
    Nat → RefreshState → List EdgeToken → List REvent × RefreshState
  | _, rs, [] => ([], rs)
  | now, rs, t :: msgs =>
    let p := refreshIteration up sr now rs t
    let q := refresh_features up sr p.2.2 p.2.1 msgs
    (p.1 ++ q.1, q.2)

/-- Result of the validate_token middleware: either the downstream handler
is invoked (srv.call) or the middleware answers directly with 403 Forbidden
or 401 Unauthorized.  `downstream` marks exactly the branches of
validate_token.rs that call srv.call(req). -/
inductive MwDecision
  | downstream
  | forbidden
  | unauthorized
  deriving DecidableEq

/-- Substring test on character lists: does `needle` occur contiguously in
`hay`?  Embeds str::contains as used at validate_token.rs lines 27 and 36. -/
def containsSub (hay needle : List Char) : Bool :=
  match hay with
  | [] => needle.isEmpty
  | _ :: rest => needle.isPrefixOf hay || containsSub rest needle

/-- String version of the substring test. -/
def strContains (hay needle : String) : Bool :=
  containsSub hay.toList needle.toList

/-- Path fragment matched for frontend tokens. -/
def sApiFrontend : String := "/api/frontend"

/-- Path fragment matched for frontend tokens (proxy alias). -/
def sApiProxy : String := "/api/proxy"

/-- Path fragment matched for client tokens. -/
def sApiClient : String := "/api/client"

/-- The validate_token middleware (validate_token.rs lines 10-67).
`registerResult` is `some` exactly when a TokenValidator is configured, and
then holds the outcome of validator.register_token (the TokenValidator
implementation is outside src/; the middleware only consumes its returned
record, so the record is taken as an input).  `sourceLookup` is the outcome
of source.get_token for the presented token string, consumed only on the
no-validator branch.  Errors from either call propagate (the `?`
operator). -/
def validate_token (registerResult : Option (Except String EdgeToken))
    (sourceLookup : Except String (Option EdgeToken)) (path : String) :
    Except String MwDecision :=
  match registerResult with
  | some (Except.error e) => Except.error e
  | some (Except.ok known) =>
    match known.status with
    | TokenValidationStatus.Validated =>
      match known.token_type with
      | some TokenType.Frontend =>
        if strContains path sApiFrontend || strContains path sApiProxy then
          Except.ok MwDecision.downstream
        else Except.ok MwDecision.forbidden
      | some TokenType.Client =>
        if strContains path sApiClient then Except.ok MwDecision.downstream
        else Except.ok MwDecision.forbidden
      | _ => Except.ok MwDecision.forbidden
    | TokenValidationStatus.Unknown => Except.ok MwDecision.unauthorized
    | TokenValidationStatus.Invalid => Except.ok MwDecision.forbidden
  | none =>
    match sourceLookup with
    | Except.error e => Except.error e
    | Except.ok (some _) => Except.ok MwDecision.downstream
    | Except.ok none => Except.ok MwDecision.forbidden

/-- The three shared caches snapshotted at shutdown (main.rs lines 148-167):
token cache (token string to record), feature cache (environment key to
payload), refresh-target cache (token string to bookkeeping).  DashMaps are
modelled as association lists in iteration order. -/
structure CachesState where
  tokenCache : List (String × EdgeToken)
  featureCache : List (String × String)
  refreshTargetCache : List (String × TokenRefresh)
  deriving DecidableEq

/-- The EdgePersistence trait object (implementation outside src/): the
three save operations invoked by clean_shutdown, as oracles. -/
structure PersistenceModel where
  save_tokens : List EdgeToken → Except String Unit
  save_features : List (String × String) → Except String Unit
  save_refresh_targets : List TokenRefresh → Except String Unit

/-- Log lines emitted by clean_shutdown (main.rs lines 176-182). -/
inductive ShutLog
  | infoSuccess
  | errorFailedSave
  deriving DecidableEq

/-- Whether a save result is a success. -/
def exOk : Except String Unit → Bool
  | Except.ok _ => true
  | Except.error _ => false

/-- clean_shutdown (main.rs lines 148-184): snapshot the three caches into
lists, then — when persistence is configured — run the three saves jointly
via join_all (all three are awaited and their results collected in order,
regardless of individual failures); log one success line when all succeed,
otherwise one error line per failed save.  The caches are only read, never
written, so the returned cache state is the input state. -/
def clean_shutdown (persistence : Option PersistenceModel) (st : CachesState) :
    CachesState × List (Except String Unit) × List ShutLog :=
  let tokens := st.tokenCache.map (fun e => e.2)
  let refresh_targets := st.refreshTargetCache.map (fun e => e.2)
  let features := st.featureCache
  match persistence with
  | none => (st, [], [])
  | some p =>
    let res := [p.save_tokens tokens, p.save_features features,
                p.save_refresh_targets refresh_targets]
    if res.all exOk then (st, res, [ShutLog.infoSuccess])
    else (st, res, (res.filter (fun r => !(exOk r))).map (fun _ => ShutLog.errorFailedSave))

/-- Token string of the envA target scoped to proj1, used in concrete runs. -/
def sTokProj1 : String := "proj1:envA.secret1"

/-- Token string of the envA target with wildcard project scope. -/
def sTokWild : String := "*:envA.secret2"

/-- Environment key shared by the two concrete targets. -/
def sEnvA : String := "envA"

/-- Project identifier proj1. -/
def sProj1 : String := "proj1"

/-- The wildcard project scope. -/
def sStar : String := "*"

/-- ETag returned by the concrete 304 upstream oracle. -/
def sEtag1 : String := "etag-v1"

/-- Error message of the concrete failing validate oracle. -/
def sErrNet : String := "network down"

/-- Concrete refresh target for (envA, proj1). -/
def tokA1 : EdgeToken :=
  { token := sTokProj1, environment := sEnvA, projects := [sProj1],
    token_type := some TokenType.Client, status := TokenValidationStatus.Validated }

/-- Concrete refresh target for (envA, wildcard scope). -/
def tokAw : EdgeToken :=
  { token := sTokWild, environment := sEnvA, projects := [sStar],
    token_type := some TokenType.Client, status := TokenValidationStatus.Validated }

/-- Concrete token sharing tokA1's token string but carrying a different
status — equal to tokA1 under the program's token equality, structurally
distinct. -/
def tokA1U : EdgeToken :=
  { token := sTokProj1, environment := sEnvA, projects := [sProj1],
    token_type := some TokenType.Client, status := TokenValidationStatus.Unknown }

/-- Concrete token with Unknown validation status. -/
def tokU : EdgeToken :=
  { token := sTokProj1, environment := sEnvA, projects := [sProj1],
    token_type := some TokenType.Client, status := TokenValidationStatus.Unknown }

/-- Concrete token with Invalid validation status. -/
def tokI : EdgeToken :=
  { token := sTokProj1, environment := sEnvA, projects := [sProj1],
    token_type := some TokenType.Client, status := TokenValidationStatus.Invalid }

/-- Concrete validated frontend-typed token. -/
def tokF : EdgeToken :=
  { token := sTokWild, environment := sEnvA, projects := [sStar],
    token_type := some TokenType.Frontend, status := TokenValidationStatus.Validated }

/-- Concrete client-route path used for the middleware runs. -/
def sClientFeaturesPath : String := "/api/client/features"

/-- Validate oracle that recognizes no token: succeeds with the empty
validated subset. -/
def v0 : List EdgeToken → Except String (List EdgeToken) := fun _ => Except.ok []

/-- Sink oracle whose sink_tokens always succeeds. -/
def s0 : List EdgeToken → Except String Unit := fun _ => Except.ok ()

/-- Validate oracle that always fails with a network error. -/
def vErr : List EdgeToken → Except String (List EdgeToken) := fun _ => Except.error sErrNet

/-- Upstream oracle answering 304 Not Modified to every fetch. -/
def up304 : EdgeToken → Except String ClientFeaturesResponse :=
  fun _ => Except.ok (ClientFeaturesResponse.NoUpdate sEtag1)

/-- sink_features oracle that always succeeds. -/
def sr0 : EdgeToken → String → Except String Unit := fun _ _ => Except.ok ()

/-- Empty sink state. -/
def initSink : SinkState := { features := [], engines := [], targets := [] }

/-- Token string of the warm concrete refresh target. -/
def sTok1 : String := "t1"

/-- Environment key of the warm concrete sink state. -/
def sEnv1 : String := "env1"

/-- Payload stored in the warm concrete sink state. -/
def sPayload : String := "payload-v1"

/-- ETag already recorded in the warm concrete sink state. -/
def sEtag0 : String := "e0"

/-- Concrete token for the warm refresh target. -/
def tokT1 : EdgeToken :=
  { token := sTok1, environment := sEnv1, projects := [sStar],
    token_type := some TokenType.Client, status := TokenValidationStatus.Validated }

/-- Warm sink state: one environment with a cached payload and engine, one
refresh target with existing bookkeeping. -/
def st0 : SinkState :=
  { features := [(sEnv1, sPayload)], engines := [(sEnv1, sPayload)],
    targets := [(sTok1, { last_refreshed := some 3, last_check := some 3, etag := some sEtag0 })] }

/-- Whether a worker event is an upstream validate invocation. -/
def isValidateCall : PEvent → Bool
  | PEvent.validateCall _ => true
  | _ => false

/-- Looking up the key just upserted returns the updated record. -/
theorem assocFind_upsert_self (k : String) (f : TokenRefresh → TokenRefresh)
    (l : List (String × TokenRefresh)) :
    assocFind k (upsertTarget k f l) = some (f ((assocFind k l).getD emptyRefresh)) := by
  induction l with
  | nil => simp [upsertTarget, assocFind]
  | cons x rest ih =>
    rcases x with ⟨k', v⟩
    by_cases hk : k' = k
    · simp [upsertTarget, assocFind, hk]
    · simp [upsertTarget, assocFind, hk, ih]

/-- Upserting one key leaves every other key's record unchanged. -/
theorem assocFind_upsert_other (k k2 : String) (f : TokenRefresh → TokenRefresh)
    (l : List (String × TokenRefresh)) (h : k2 ≠ k) :
    assocFind k2 (upsertTarget k f l) = assocFind k2 l := by
  induction l with
  | nil => simp [upsertTarget, assocFind, Ne.symm h]
  | cons x rest ih =>
    rcases x with ⟨k', v⟩
    by_cases hk : k' = k
    · subst hk
      simp [upsertTarget, assocFind, Ne.symm h]
    · simp [upsertTarget, assocFind, hk, ih]

/-- Every branch of the per-target loop body begins with the fetch event for
its target. -/
theorem refreshOne_fetch_head (up : EdgeToken → Except String ClientFeaturesResponse)
    (sr : EdgeToken → String → Except String Unit) (now : Nat) (st : SinkState) (u : EdgeToken) :
    ∃ l, (refreshOne up sr now st u).1 = REvent.fetch u :: l := by
  cases h : up u with
  | error e => exact ⟨[REvent.warnFetchFailed e], by simp [refreshOne, fetch_features, h]⟩
  | ok r =>
    cases r with
    | NoUpdate tag => exact ⟨[REvent.infoNoUpdate], by simp [refreshOne, fetch_features, h]⟩
    | Updated fs tag =>
      cases hs : sr u fs with
      | error e =>
        exact ⟨[REvent.sinkFeats u fs, REvent.warnSinkFailed e],
               by simp [refreshOne, fetch_features, h, hs]⟩
      | ok x => exact ⟨[REvent.sinkFeats u fs], by simp [refreshOne, fetch_features, h, hs]⟩

/-- The per-target loop issues a fetch for every member of the token set. -/
theorem refreshBatch_fetch_mem (up : EdgeToken → Except String ClientFeaturesResponse)
    (sr : EdgeToken → String → Except String Unit) (ts : List EdgeToken) :
    ∀ (now : Nat) (st : SinkState) (u : EdgeToken),
    u ∈ ts → REvent.fetch u ∈ (refreshBatch up sr now st ts).1 := by
  induction ts with
  | nil =>
    intro now st u h
    cases h
  | cons x rest ih =>
    intro now st u h
    rcases List.mem_cons.mp h with hx | hrest
    · subst hx
      obtain ⟨l, hl⟩ := refreshOne_fetch_head up sr now st u
      simp [refreshBatch, hl]
    · have hmem := ih (now + 1) (refreshOne up sr now st x).2 u hrest
      simp [refreshBatch]
      exact Or.inr hmem

/-- Every iteration of the token-status worker performs exactly one upstream
validate invocation. -/
theorem pollIteration_countP (v : List EdgeToken → Except String (List EdgeToken))
    (s : List EdgeToken → Except String Unit) (t : EdgeToken) :
    (pollIteration v s t).countP isValidateCall = 1 := by
  cases hv : v [t] with
  | error e => simp [pollIteration, hv, isValidateCall, List.countP_cons]
  | ok vs =>
    cases hs : s vs with
    | error e => simp [pollIteration, hv, hs, isValidateCall, List.countP_cons]
    | ok x => simp [pollIteration, hv, hs, isValidateCall, List.countP_cons]

/-- After inserting a token, the set contains a token equal to it under the
program's token equality (either the token itself was appended, or a
same-string token was already stored). -/
theorem any_insertToken_self (t : EdgeToken) (ts : List EdgeToken) :
    (insertToken t ts).any (tokenEq t) = true := by
  cases h : ts.any (tokenEq t) with
  | true => simp [insertToken, h]
  | false => simp [insertToken, h, List.any_append, tokenEq]

/-- After inserting a token, some list member is equal to it under the
program's token equality. -/
theorem exists_mem_insertToken_tokenEq (t : EdgeToken) (ts : List EdgeToken) :
    ∃ u, u ∈ insertToken t ts ∧ tokenEq t u = true := by
  have h := any_insertToken_self t ts
  rcases List.any_eq_true.mp h with ⟨u, hu, he⟩
  exact ⟨u, hu, he⟩

/-- Claim C1, counterexample: the token-status worker's handoff is the
blocking bounded-channel send, and on a full open channel (capacity 1,
one queued hint) that send suspends the worker instead of completing
without suspension or dropping the hint. -/
theorem C1_counterexample :
    pollIteration v0 s0 tokA1 =
      [PEvent.validateCall [tokA1], PEvent.sinkCall [], PEvent.sendHint tokA1] ∧
    mpscSend { cap := 1, queue := [tokAw], closed := false } tokA1 = SendOutcome.suspended :=
  ⟨rfl, rfl⟩

/-- Claim C1, amended: the worker's handoff send awaits channel capacity —
with room it enqueues the hint at the tail (FIFO); on a full open channel
the worker suspends until space frees, so the hint is delivered late rather
than dropped; and the worker discards the send's result and always proceeds
to the next receive. -/
theorem C1_amended_blocking_send :
    ∀ (c : FChannel) (t : EdgeToken) (v : List EdgeToken → Except String (List EdgeToken))
      (s : List EdgeToken → Except String Unit) (msgs : List EdgeToken),
    (c.closed = false → c.queue.length < c.cap →
      mpscSend c t = SendOutcome.enqueued { c with queue := c.queue ++ [t] }) ∧
    (c.closed = false → c.cap ≤ c.queue.length → mpscSend c t = SendOutcome.suspended) ∧
    poll_for_token_status v s (t :: msgs) = pollIteration v s t ++ poll_for_token_status v s msgs := by
  intro c t v s msgs
  refine ⟨?_, ?_, rfl⟩
  · intro hc hlt
    simp [mpscSend, hc, hlt]
  · intro hc hge
    simp [mpscSend, hc, Nat.not_lt.mpr hge]

/-- Claim C1, witness: on a capacity-1 empty open channel the send enqueues
the hint; on a capacity-1 full open channel it suspends. -/
theorem C1_witness :
    mpscSend { cap := 1, queue := [], closed := false } tokA1 =
      SendOutcome.enqueued { cap := 1, queue := [tokA1], closed := false } ∧
    mpscSend { cap := 1, queue := [tokAw], closed := false } tokA1 = SendOutcome.suspended :=
  ⟨(C1_amended_blocking_send { cap := 1, queue := [], closed := false } tokA1 v0 s0 []).1
      rfl (by decide),
   (C1_amended_blocking_send { cap := 1, queue := [tokAw], closed := false } tokA1 v0 s0 []).2.1
      rfl (by decide)⟩

/-- Claim C2, counterexample: with a non-empty registered target set and no
handoff message arriving on the feature channel, the refresher issues no
fetch at all — the run over an empty received sequence produces no events,
because the receive gates every iteration and there is no timer-driven
branch. -/
theorem C2_counterexample :
    ({ tokens := [tokA1], sink := initSink } : RefreshState).tokens ≠ [] ∧
    refresh_features up304 sr0 0 { tokens := [tokA1], sink := initSink } [] =
      ([], { tokens := [tokA1], sink := initSink }) :=
  ⟨by simp, rfl⟩

/-- Claim C2, amended: the refresher fetches every registered target
(including the newly inserted one) each time a handoff message arrives, and
with no incoming message it issues no fetches at all; the fixed 15-second
sleep only delays the next receive. -/
theorem C2_amended_fetch_only_on_handoff :
    ∀ (up : EdgeToken → Except String ClientFeaturesResponse)
      (sr : EdgeToken → String → Except String Unit) (now : Nat)
      (rs : RefreshState) (t u : EdgeToken),
    (u ∈ insertToken t rs.tokens → REvent.fetch u ∈ (refreshIteration up sr now rs t).1) ∧
    refresh_features up sr now rs [] = ([], rs) := by
  intro up sr now rs t u
  refine ⟨?_, rfl⟩
  intro hu
  have h := refreshBatch_fetch_mem up sr (insertToken t rs.tokens) now rs.sink u hu
  have h2 : REvent.fetch u ∈
      REvent.recvToken t ::
        ((refreshBatch up sr now rs.sink (insertToken t rs.tokens)).1 ++ [REvent.sleep15]) :=
    List.mem_cons_of_mem _ (List.mem_append_left _ h)
  simpa [refreshIteration] using h2

/-- Claim C2, witness: on a handoff of the concrete target the refresher
fetches it, and with no handoff the run over the empty received sequence
produces no events. -/
theorem C2_witness :
    REvent.fetch tokA1 ∈ (refreshIteration up304 sr0 0 { tokens := [], sink := initSink } tokA1).1 ∧
    refresh_features up304 sr0 0 { tokens := [], sink := initSink } [] =
      ([], { tokens := [], sink := initSink }) :=
  ⟨(C2_amended_fetch_only_on_handoff up304 sr0 0 { tokens := [], sink := initSink } tokA1 tokA1).1
      (by decide),
   (C2_amended_fetch_only_on_handoff up304 sr0 0 { tokens := [], sink := initSink } tokA1 tokA1).2⟩

/-- Claim C3, counterexample: two deliveries of the same unseen token to the
token-status worker produce two upstream validate invocations, not exactly
one. -/
theorem C3_counterexample :
    (poll_for_token_status v0 s0 [tokA1, tokA1]).countP isValidateCall = 2 ∧
    (poll_for_token_status v0 s0 [tokA1, tokA1]).countP isValidateCall ≠ 1 :=
  ⟨rfl, by decide⟩

/-- Claim C3, amended: the token-status worker performs no single-flight
de-duplication — it issues exactly one upstream validate invocation per
token message received on its channel, so N deliveries of the same unseen
token produce N validate calls, processed sequentially in arrival order. -/
theorem C3_amended_validate_per_message :
    ∀ (v : List EdgeToken → Except String (List EdgeToken))
      (s : List EdgeToken → Except String Unit) (msgs : List EdgeToken),
    (poll_for_token_status v s msgs).countP isValidateCall = msgs.length := by
  intro v s msgs
  induction msgs with
  | nil => rfl
  | cons t rest ih =>
    simp [poll_for_token_status, List.countP_append, ih, pollIteration_countP,
      Nat.add_comm]

/-- Claim C4, counterexample: after registering the (envA, proj1) target and
the (envA, wildcard) target — in either order — the refresher's target set
holds both targets for envA, not exactly the single wildcard one; no
subsumption is applied. -/
theorem C4_counterexample :
    (refresh_features up304 sr0 0 { tokens := [], sink := initSink } [tokA1, tokAw]).2.tokens =
      [tokA1, tokAw] ∧
    ((refresh_features up304 sr0 0 { tokens := [], sink := initSink }
        [tokA1, tokAw]).2.tokens.countP (fun u => u.environment == sEnvA)) = 2 ∧
    (refresh_features up304 sr0 0 { tokens := [], sink := initSink } [tokAw, tokA1]).2.tokens =
      [tokAw, tokA1] :=
  ⟨by decide, by decide, by decide⟩

/-- Claim C4, amended: the refresh-target set applies no subsumption rule —
it is a plain HashSet of tokens deduplicated by token string (spec section
3: tokens with the same string are equal), so a handoff leaves the set
unchanged exactly when a token with the same token string is already stored
and otherwise appends the new target; project scopes are never compared, so
a wildcard target neither replaces nor suppresses narrower ones. -/
theorem C4_amended_no_subsumption :
    ∀ (up : EdgeToken → Except String ClientFeaturesResponse)
      (sr : EdgeToken → String → Except String Unit) (now : Nat)
      (rs : RefreshState) (t : EdgeToken),
    (rs.tokens.any (tokenEq t) = true →
      (refreshIteration up sr now rs t).2.1.tokens = rs.tokens) ∧
    (rs.tokens.any (tokenEq t) = false →
      (refreshIteration up sr now rs t).2.1.tokens = rs.tokens ++ [t]) := by
  intro up sr now rs t
  constructor
  · intro h
    simp [refreshIteration, insertToken, h]
  · intro h
    simp [refreshIteration, insertToken, h]

/-- Claim C4, witness: handing over a token whose string is already stored
(even with a different status field) leaves the set unchanged, and
registering the wildcard target next to the proj1 target appends it instead
of replacing the narrower one. -/
theorem C4_witness :
    (refreshIteration up304 sr0 0 { tokens := [tokA1], sink := initSink } tokA1U).2.1.tokens =
      [tokA1] ∧
    (refreshIteration up304 sr0 0 { tokens := [tokA1], sink := initSink } tokAw).2.1.tokens =
      [tokA1] ++ [tokAw] :=
  ⟨(C4_amended_no_subsumption up304 sr0 0 { tokens := [tokA1], sink := initSink } tokA1U).1
      (by decide),
   (C4_amended_no_subsumption up304 sr0 0 { tokens := [tokA1], sink := initSink } tokAw).2
      (by decide)⟩

/-- Claim C5: a per-target fetch answered 304 Not Modified leaves the
feature cache B and the engine cache C unchanged — two successive 304
fetches leave both byte-identical to the starting state — and only the
target's last-check timestamp advances (to the clock reading of the fetch),
every other target's bookkeeping and the target's other fields being left
as they were. -/
theorem C5_304_frame :
    ∀ (up : EdgeToken → Except String ClientFeaturesResponse)
      (sr : EdgeToken → String → Except String Unit)
      (st : SinkState) (t : EdgeToken) (n1 n2 : Nat) (tag : String),
    up t = Except.ok (ClientFeaturesResponse.NoUpdate tag) →
    (refreshOne up sr n1 st t).2.features = st.features ∧
    (refreshOne up sr n1 st t).2.engines = st.engines ∧
    (refreshOne up sr n2 (refreshOne up sr n1 st t).2 t).2.features = st.features ∧
    (refreshOne up sr n2 (refreshOne up sr n1 st t).2 t).2.engines = st.engines ∧
    assocFind t.token (refreshOne up sr n1 st t).2.targets =
      some { (assocFind t.token st.targets).getD emptyRefresh with last_check := some n1 } ∧
    assocFind t.token (refreshOne up sr n2 (refreshOne up sr n1 st t).2 t).2.targets =
      some { (assocFind t.token st.targets).getD emptyRefresh with last_check := some n2 } ∧
    (∀ k, k ≠ t.token →
      assocFind k (refreshOne up sr n2 (refreshOne up sr n1 st t).2 t).2.targets =
        assocFind k st.targets) := by
  intro up sr st t n1 n2 tag h
  have hone : ∀ (n : Nat) (s' : SinkState),
      refreshOne up sr n s' t =
        ([REvent.fetch t, REvent.infoNoUpdate],
         { s' with
           targets :=
             upsertTarget t.token (fun r => { r with last_check := some n }) s'.targets }) := by
    intro n s'
    simp [refreshOne, fetch_features, h]
  refine ⟨?_, ?_, ?_, ?_, ?_, ?_, ?_⟩
  · simp [hone]
  · simp [hone]
  · simp [hone]
  · simp [hone]
  · simp [hone, assocFind_upsert_self]
  · simp [hone, assocFind_upsert_self]
  · intro k hk
    simp [hone, assocFind_upsert_other _ _ _ _ hk]

/-- Claim C5, witness: in the warm sink state, a 304 fetch at clock 5 and a
second at clock 9 leave the feature and engine caches identical and advance
only the target's last-check timestamp. -/
theorem C5_witness :
    (refreshOne up304 sr0 5 st0 tokT1).2.features = st0.features ∧
    (refreshOne up304 sr0 5 st0 tokT1).2.engines = st0.engines ∧
    (refreshOne up304 sr0 9 (refreshOne up304 sr0 5 st0 tokT1).2 tokT1).2.features =
      st0.features ∧
    (refreshOne up304 sr0 9 (refreshOne up304 sr0 5 st0 tokT1).2 tokT1).2.engines =
      st0.engines ∧
    assocFind tokT1.token (refreshOne up304 sr0 5 st0 tokT1).2.targets =
      some { (assocFind tokT1.token st0.targets).getD emptyRefresh with last_check := some 5 } ∧
    assocFind tokT1.token
        (refreshOne up304 sr0 9 (refreshOne up304 sr0 5 st0 tokT1).2 tokT1).2.targets =
      some { (assocFind tokT1.token st0.targets).getD emptyRefresh with last_check := some 9 } ∧
    (∀ k, k ≠ tokT1.token →
      assocFind k (refreshOne up304 sr0 9 (refreshOne up304 sr0 5 st0 tokT1).2 tokT1).2.targets =
        assocFind k st0.targets) :=
  C5_304_frame up304 sr0 st0 tokT1 5 9 sEtag1 rfl

/-- Claim C6: with a configured TokenValidator, the middleware answers 401
Unauthorized when the registered token's status is Unknown and 403 Forbidden
when it is Invalid, in both cases without invoking the downstream handler
(the result is not the downstream decision), for every request path and
every state of the token source. -/
theorem C6_unknown_invalid_status :
    ∀ (kt : EdgeToken) (lookup : Except String (Option EdgeToken)) (path : String),
    (kt.status = TokenValidationStatus.Unknown →
      validate_token (some (Except.ok kt)) lookup path = Except.ok MwDecision.unauthorized) ∧
    (kt.status = TokenValidationStatus.Invalid →
      validate_token (some (Except.ok kt)) lookup path = Except.ok MwDecision.forbidden) := by
  intro kt lookup path
  constructor <;> intro h <;> simp [validate_token, h]

/-- Claim C6, witness: the concrete Unknown-status token is answered 401 and
the concrete Invalid-status token 403 on the client route. -/
theorem C6_witness :
    tokU.status = TokenValidationStatus.Unknown ∧
    validate_token (some (Except.ok tokU)) (Except.ok none) sClientFeaturesPath =
      Except.ok MwDecision.unauthorized ∧
    tokI.status = TokenValidationStatus.Invalid ∧
    validate_token (some (Except.ok tokI)) (Except.ok none) sClientFeaturesPath =
      Except.ok MwDecision.forbidden :=
  ⟨rfl,
   (C6_unknown_invalid_status tokU (Except.ok none) sClientFeaturesPath).1 rfl,
   rfl,
   (C6_unknown_invalid_status tokI (Except.ok none) sClientFeaturesPath).2 rfl⟩

/-- Claim C7: clean_shutdown snapshots the full contents of the token,
feature, and refresh-target caches into lists, invokes the three saves
jointly (all three results are collected, in order, whatever succeeds or
fails), emits one error log per failed save, and leaves the in-memory cache
state exactly as it was. -/
theorem C7_clean_shutdown_saves :
    ∀ (p : PersistenceModel) (st : CachesState),
    (clean_shutdown (some p) st).1 = st ∧
    (clean_shutdown (some p) st).2.1 =
      [p.save_tokens (st.tokenCache.map (fun e => e.2)),
       p.save_features st.featureCache,
       p.save_refresh_targets (st.refreshTargetCache.map (fun e => e.2))] ∧
    ((clean_shutdown (some p) st).2.2).count ShutLog.errorFailedSave =
      ((clean_shutdown (some p) st).2.1).countP (fun r => !(exOk r)) := by
  intro p st
  cases h1 : p.save_tokens (st.tokenCache.map (fun e => e.2)) <;>
  cases h2 : p.save_features st.featureCache <;>
  cases h3 : p.save_refresh_targets (st.refreshTargetCache.map (fun e => e.2)) <;>
  simp [clean_shutdown, h1, h2, h3, exOk, List.count_cons, List.countP_cons]

/-- Claim C8: when upstream validate fails for a received token, the
token-status worker only logs the error — it sinks no tokens and sends no
eager-refresh hint for that token (the iteration's events are exactly the
validate call and the warning) — and the loop goes on to receive and process
the subsequent tokens unchanged. -/
theorem C8_validate_error_contained :
    ∀ (v : List EdgeToken → Except String (List EdgeToken))
      (s : List EdgeToken → Except String Unit)
      (t : EdgeToken) (msgs : List EdgeToken) (e : String),
    v [t] = Except.error e →
    pollIteration v s t = [PEvent.validateCall [t], PEvent.warnValidate e] ∧
    poll_for_token_status v s (t :: msgs) =
      [PEvent.validateCall [t], PEvent.warnValidate e] ++ poll_for_token_status v s msgs := by
  intro v s t msgs e h
  have h1 : pollIteration v s t = [PEvent.validateCall [t], PEvent.warnValidate e] := by
    simp [pollIteration, h]
  exact ⟨h1, by simp [poll_for_token_status, h1]⟩

/-- Claim C8, witness: with the always-failing validate oracle, the worker
logs the failure for the first token and still processes the next one. -/
theorem C8_witness :
    pollIteration vErr s0 tokA1 = [PEvent.validateCall [tokA1], PEvent.warnValidate sErrNet] ∧
    poll_for_token_status vErr s0 [tokA1, tokAw] =
      [PEvent.validateCall [tokA1], PEvent.warnValidate sErrNet] ++
        poll_for_token_status vErr s0 [tokAw] :=
  C8_validate_error_contained vErr s0 tokA1 [tokAw] sErrNet rfl

/-- Claim C9: when validate and sink_tokens both succeed, the worker
forwards the ORIGINAL incoming token — not the validated records — on the
feature channel (this holds for every validated subset, the empty one
included), and the refresher, upon receiving that token, inserts it into its
refresh set — so the set then holds a token equal to it under the program's
token-string equality — and issues an upstream fetch for that target. -/
theorem C9_forwards_original_token :
    ∀ (v : List EdgeToken → Except String (List EdgeToken))
      (s : List EdgeToken → Except String Unit)
      (t : EdgeToken) (vs : List EdgeToken)
      (up : EdgeToken → Except String ClientFeaturesResponse)
      (sr : EdgeToken → String → Except String Unit)
      (now : Nat) (rs : RefreshState),
    v [t] = Except.ok vs → s vs = Except.ok () →
    pollIteration v s t = [PEvent.validateCall [t], PEvent.sinkCall vs, PEvent.sendHint t] ∧
    ((refreshIteration up sr now rs t).2.1.tokens).any (tokenEq t) = true ∧
    (∃ u, REvent.fetch u ∈ (refreshIteration up sr now rs t).1 ∧ tokenEq t u = true) := by
  intro v s t vs up sr now rs hv hs
  refine ⟨by simp [pollIteration, hv, hs], ?_, ?_⟩
  · have h := any_insertToken_self t rs.tokens
    simpa [refreshIteration] using h
  · obtain ⟨u, hu, he⟩ := exists_mem_insertToken_tokenEq t rs.tokens
    have h := refreshBatch_fetch_mem up sr (insertToken t rs.tokens) now rs.sink u hu
    have h2 : REvent.fetch u ∈
        REvent.recvToken t ::
          ((refreshBatch up sr now rs.sink (insertToken t rs.tokens)).1 ++ [REvent.sleep15]) :=
      List.mem_cons_of_mem _ (List.mem_append_left _ h)
    exact ⟨u, by simpa [refreshIteration] using h2, he⟩

/-- Claim C9, witness: with an upstream that recognizes no token (validated
subset empty) and a succeeding sink, the worker still forwards the original
token, and the refresher registers and fetches it. -/
theorem C9_witness :
    pollIteration v0 s0 tokA1 =
      [PEvent.validateCall [tokA1], PEvent.sinkCall [], PEvent.sendHint tokA1] ∧
    ((refreshIteration up304 sr0 0 { tokens := [], sink := initSink } tokA1).2.1.tokens).any
        (tokenEq tokA1) = true ∧
    (∃ u, REvent.fetch u ∈ (refreshIteration up304 sr0 0 { tokens := [], sink := initSink } tokA1).1 ∧
      tokenEq tokA1 u = true) :=
  C9_forwards_original_token v0 s0 tokA1 [] up304 sr0 0 { tokens := [], sink := initSink } rfl rfl

/-- Claim C10: with no TokenValidator configured, the middleware admits a
request exactly when get_token finds the presented token string and answers
403 Forbidden otherwise, for every token record and every path — the token's
type is never checked against the path, so a frontend-typed token found by
the source is admitted to the client route (where the validator path would
answer 403). -/
theorem C10_no_validator_no_type_check :
    ∀ (tok : EdgeToken) (path : String),
    validate_token none (Except.ok (some tok)) path = Except.ok MwDecision.downstream ∧
    validate_token none (Except.ok none) path = Except.ok MwDecision.forbidden ∧
    validate_token none (Except.ok (some tokF)) sClientFeaturesPath =
      Except.ok MwDecision.downstream ∧
    validate_token (some (Except.ok tokF)) (Except.ok (some tokF)) sClientFeaturesPath =
      Except.ok MwDecision.forbidden := by
  intro tok path
  exact ⟨rfl, rfl, rfl, rfl⟩
